import Mathlib

/-!
A verification development for the sour cluster orchestrator.
Each section embeds a slice of the Go source as executable Lean
definitions and proves or refutes specification claims about it.
-/

namespace Sour

/-! ### Interception pipeline (Cluster.PollUser, src/unnamed/part_010) -/

/-- Modelled from the spec: a tap resolves every intercepted message to a
disposition, one of Pass, Drop or Replace(newMessage).  The intercept
package itself is not under src/; only its callers are, so the
disposition type follows the spec's InterceptTap description. -/
inductive Disp (α : Type) where
  | pass
  | drop
  | repl (m : α)

/-- The message (if any) that survives disposition resolution: Pass keeps
the original, Drop removes it, Replace substitutes the replacement.  This
renders the (P.Message, error) pair returned by the pipeline's Process
call, with a nil message rendered as none. -/
def dispOut {α : Type} (d : Disp α) (m : α) : Option α :=
  match d with
  | .pass => some m
  | .drop => none
  | .repl m2 => some m2

/-- Client-to-server half of Cluster.PollUser (src/unnamed/part_010,
toServer branch): each decoded message is run through the user's From
pipeline; a nil result skips the message; otherwise the original message
is run through the server's To pipeline and that result is appended to
the processed list (with no nil check, exactly as in the source). -/
def pollUserToServer {α : Type} (fromD toD : α → Disp α) : List α → List (Option α)
  | [] => []
  | m :: rest =>
    match dispOut (fromD m) m with
    | none => pollUserToServer fromD toD rest
    | some _ => dispOut (toD m) m :: pollUserToServer fromD toD rest

/-- Server-to-client half of Cluster.PollUser (src/unnamed/part_010,
toClient branch): each message is run through the user's To pipeline; nil
results are skipped and every surviving message is encoded and appended
to the outbound packet in order. -/
def pollUserToClient {α : Type} (toD : α → Disp α) : List α → List α
  | [] => []
  | m :: rest =>
    match dispOut (toD m) m with
    | none => pollUserToClient toD rest
    | some m2 => m2 :: pollUserToClient toD rest

/-- Whether the user's From pipeline drops the message. -/
def dropsFrom {α : Type} (fromD : α → Disp α) (m : α) : Bool :=
  (dispOut (fromD m) m).isNone

theorem length_filter_not_eq_sub {α : Type} (p : α → Bool) (l : List α) :
    (l.filter (fun m => !p m)).length = l.length - (l.filter p).length := by
  have h : (l.filter p).length + (l.filter (fun m => !p m)).length = l.length := by
    induction l with
    | nil => rfl
    | cons m rest ih =>
      by_cases hm : p m = true
      · simp only [List.filter, hm, Bool.not_true, List.length_cons]
        omega
      · simp only [Bool.not_eq_true] at hm
        simp only [List.filter, hm, Bool.not_false, List.length_cons]
        omega
  omega

theorem pollUserToServer_eq {α : Type} (fromD toD : α → Disp α) (msgs : List α) :
    pollUserToServer fromD toD msgs
      = (msgs.filter (fun m => !dropsFrom fromD m)).map (fun m => dispOut (toD m) m) := by
  induction msgs with
  | nil => rfl
  | cons m rest ih =>
    cases h : dispOut (fromD m) m with
    | none => simp [pollUserToServer, dropsFrom, h, ih]
    | some m2 => simp [pollUserToServer, dropsFrom, h, ih]

theorem pollUserToClient_eq {α : Type} (toD : α → Disp α) (msgs : List α) :
    pollUserToClient toD msgs = msgs.filterMap (fun m => dispOut (toD m) m) := by
  induction msgs with
  | nil => rfl
  | cons m rest ih =>
    cases h : dispOut (toD m) m with
    | none => simp [pollUserToClient, h, ih]
    | some m2 => simp [pollUserToClient, h, ih]

/-- C1: within a session's interception pipeline, the messages of an
inbound packet are processed in decode order in both directions; the
outbound packet contains exactly the decoded messages minus those whose
disposition is Drop, each surviving (passed or replaced) message
contributing exactly one output entry, in the original order. -/
theorem c1_intercept_pipeline_order {α : Type} (fromD toD : α → Disp α)
    (msgs : List α) :
    pollUserToServer fromD toD msgs
      = (msgs.filter (fun m => !dropsFrom fromD m)).map (fun m => dispOut (toD m) m)
    ∧ (pollUserToServer fromD toD msgs).length
      = msgs.length - (msgs.filter (fun m => dropsFrom fromD m)).length
    ∧ pollUserToClient toD msgs = msgs.filterMap (fun m => dispOut (toD m) m)
    ∧ (pollUserToClient toD msgs).length
      = msgs.length - (msgs.filter (fun m => (dispOut (toD m) m).isNone)).length := by
  refine ⟨pollUserToServer_eq fromD toD msgs, ?_, pollUserToClient_eq toD msgs, ?_⟩
  · rw [pollUserToServer_eq, List.length_map, length_filter_not_eq_sub]
  · rw [pollUserToClient_eq]
    have h3 : ∀ l : List α, (List.filterMap (fun m => dispOut (toD m) m) l).length
        = (l.filter (fun m => !(dispOut (toD m) m).isNone)).length := by
      intro l
      induction l with
      | nil => rfl
      | cons m rest ih =>
        cases h2 : dispOut (toD m) m with
        | none => simp [List.filterMap_cons, List.filter_cons, h2, ih]
        | some m2 => simp [List.filterMap_cons, List.filter_cons, h2, ih]
    rw [h3, length_filter_not_eq_sub]

/-! ### Text-chat tap (Cluster.PollFromMessages, src/unnamed/part_010) -/

/-- A disposition call the chats handler makes on the intercepted
message, in the order the source makes them. -/
inductive DispCall where
  | drop
  | pass
deriving DecidableEq, Repr

/-- Chat text, modelled as the list of its characters (Go strings are
byte slices and the source indexes them positionally). -/
def ChatText : Type := List Char

/-- Whether the text begins with the command sentinel, mirroring
strings.HasPrefix(text, "#"). -/
def startsWithSentinel (text : List Char) : Bool :=
  match text with
  | c :: _ => c = '#'
  | [] => false

/-- Everything the chats branch of PollFromMessages does with one
intercepted N_TEXT message. -/
structure ChatRes where
  /-- Disposition calls issued on the intercepted message, in order. -/
  calls : List DispCall
  /-- Text relayed through the cluster's own global chat, if any. -/
  globalChat : Option (List Char)
  /-- Whether a too-long warning was sent back to the sender. -/
  warned : Bool
  /-- Command text handed to the command router, if any. -/
  dispatched : Option (List Char)
deriving DecidableEq, Repr

/-- The chats branch of Cluster.PollFromMessages (src/unnamed/part_010,
case msg := <-chats.Receive()): the handler first calls Drop; overlong
text is truncated to maxstrlen with a warning; text without the '#'
sentinel is relayed through ForwardGlobalChat; text with the sentinel
gets an additional Pass call, and the command-dispatch block below it is
commented out in the source, so nothing is handed to the command router.
maxstrlen stands for the game constant C.MAXSTRLEN, whose definition is
not under src/. -/
def chatsTap (maxstrlen : Nat) (text : List Char) : ChatRes :=
  let cut : Bool := maxstrlen ≤ text.length
  let text2 := if cut then text.take maxstrlen else text
  if startsWithSentinel text2 then
    { calls := [.drop, .pass], globalChat := none, warned := cut, dispatched := none }
  else
    { calls := [.drop], globalChat := some text2, warned := cut, dispatched := none }

/-- C2 counterexample: the chat text "#join lobby" begins with the
sentinel, yet the handler dispatches nothing to the command router
(dispatched = none) and resolves the message with Drop followed by Pass,
i.e. the source's command-dispatch block is commented out and the packet
is passed on to the game server rather than intercepted.  This refutes
the claim that '#'-texts are not forwarded and are instead tokenized and
dispatched. -/
theorem c2_chat_counterexample :
    chatsTap 260 ['#', 'j', 'o', 'i', 'n', ' ', 'l', 'o', 'b', 'b', 'y']
      = { calls := [.drop, .pass], globalChat := none,
          warned := false, dispatched := none } := by
  decide

/-- C2 (amended): for every chat text intercepted by the text-chat tap,
the handler never dispatches anything to the command router; it first
calls Drop, and when the (possibly truncated) text begins with '#' it
additionally calls Pass, while text without the sentinel is relayed
through the cluster's own global chat instead of the game server. -/
theorem c2_chat_tap (maxstrlen : Nat) (text : List Char) :
    (chatsTap maxstrlen text).dispatched = none
    ∧ (chatsTap maxstrlen text).calls
      = (if startsWithSentinel (if maxstrlen ≤ text.length then text.take maxstrlen else text)
          then [DispCall.drop, DispCall.pass] else [DispCall.drop])
    ∧ (chatsTap maxstrlen text).globalChat
      = (if startsWithSentinel (if maxstrlen ≤ text.length then text.take maxstrlen else text)
          then none
          else some (if maxstrlen ≤ text.length then text.take maxstrlen else text)) := by
  unfold chatsTap
  by_cases hcut : maxstrlen ≤ text.length
  · simp only [hcut, decide_True, if_true]
    by_cases hs : startsWithSentinel (text.take maxstrlen) = true <;> simp [hs]
  · simp only [hcut, decide_False, if_false]
    by_cases hs : startsWithSentinel text = true <;> simp [hs]

/-! ### Session-to-server attachment
    (ClientManager.ConnectClient and ClientManager.ClientDisconnected,
    src/services/go/svc/cluster/clients/module.go) -/

/-- The status of the client's connection to their game server. -/
inductive ClientStatus where
  | connecting
  | connected
  | disconnected
deriving DecidableEq, Repr

/-- The per-client state the ClientManager tracks: current server
attachment, status, and the current server-session scope (the Go
serverSessionCtx), identified here by a scope id. -/
structure ClientState where
  server : Option Nat
  status : ClientStatus
  scope : Option Nat
deriving DecidableEq, Repr

/-- Control-channel and connection actions ConnectClient can emit. -/
inductive CAction where
  | sendDisconnect (server : Nat)
  | sendConnect (server : Nat)
  | clientConnect
  | closeIngress
deriving DecidableEq, Repr

/-- What one call to ConnectClient produces. -/
structure ConnectRes where
  state : ClientState
  /-- Actions emitted, in order. -/
  actions : List CAction
  /-- Parent of the freshly installed server scope. -/
  newScopeParent : Nat
  /-- Scopes whose cancel function was invoked during the call. -/
  canceledScopes : List Nat
deriving DecidableEq, Repr

/-- ClientManager.ConnectClient (clients/module.go, lines 170-229): if
the client is no longer connected to the ingress the call fails;
otherwise a Disconnect is sent to the old server if any, the state is
repointed at the new server with status Connecting, a fresh
serverSessionCtx is created as a child of the client's session context
(the old cancel function is overwritten WITHOUT being called), and then
Connect is sent to the new server followed by client.Connect().  The
ingress connection is never touched. -/
def ConnectClient (st : ClientState) (networkConnected : Bool)
    (sessionScope newScope server : Nat) : Except String ConnectRes :=
  if !networkConnected then
    .error "client not connected to cluster"
  else
    .ok {
      state := { server := some server, status := .connecting, scope := some newScope }
      actions :=
        (match st.server with
          | some old => [CAction.sendDisconnect old]
          | none => []) ++ [CAction.sendConnect server, CAction.clientConnect]
      newScopeParent := sessionScope
      canceledScopes := [] }

/-- The one-second connect confirmation budget (context.WithTimeout
(sessionCtx, time.Second*1) in the source), in milliseconds. -/
def connectTimeoutMillis : Nat := 1000

/-- The 50 ms poll used while waiting for the confirmation. -/
def connectPollMillis : Nat := 50

/-- The confirmation goroutine of ConnectClient: polls the client status
every 50 ms for up to one second (20 polls); reports true as soon as the
status reads Connected and false when the budget elapses. -/
def awaitConnect (timeline : Nat → ClientStatus) : Bool :=
  go timeline 0 (connectTimeoutMillis / connectPollMillis)
where
  /-- One polling step: check, then wait for the next tick. -/
  go (timeline : Nat → ClientStatus) (i fuel : Nat) : Bool :=
    match fuel with
    | 0 => false
    | fuel + 1 =>
      if timeline i = .connected then true else go timeline (i + 1) fuel

/-- ClientManager.ClientDisconnected (clients/module.go, lines 233-251):
sends Disconnect to the attached server if any, clears the attachment,
marks the status Disconnected and cancels the server scope. -/
def ClientDisconnected (st : ClientState) : ClientState × List CAction × List Nat :=
  ({ server := none, status := .disconnected, scope := none },
    (match st.server with
      | some old => [CAction.sendDisconnect old]
      | none => []),
    (match st.scope with
      | some sc => [sc]
      | none => []))

/-- C3 counterexample: a session attached to server 1 under server scope
7 is connected to server 2; the call returns successfully, yet the set of
scopes canceled during the call is empty — scope 7 is abandoned, not
canceled (ConnectClient overwrites state.cancel without invoking it).
This refutes the claim that connecting to a new server cancels the old
serverScope. -/
theorem c3_connect_counterexample :
    ConnectClient { server := some 1, status := .connected, scope := some 7 }
        true 3 8 2
      = .ok { state := { server := some 2, status := .connecting, scope := some 8 },
              actions := [CAction.sendDisconnect 1, CAction.sendConnect 2,
                          CAction.clientConnect],
              newScopeParent := 3,
              canceledScopes := [] }
    ∧ (7 : Nat) ∉ ([] : List Nat) := by
  exact ⟨rfl, by decide⟩

/-- C3 (amended): for every session connected at the ingress, attaching
it to a new server sends Disconnect to the old server (if any) and then
Connect to the new server, installs a fresh serverScope as a child of the
sessionScope while the old serverScope is abandoned without being
canceled, waits up to one second (polling every 50 ms) for the Connect
confirmation and reports success exactly when the status reaches
Connected in time — and the ingress connection is never closed. -/
theorem c3_connect_client (st : ClientState) (sessionScope newScope server : Nat) :
    ConnectClient st true sessionScope newScope server
      = .ok { state := { server := some server, status := .connecting,
                         scope := some newScope },
              actions := (match st.server with
                | some old => [CAction.sendDisconnect old]
                | none => []) ++ [CAction.sendConnect server, CAction.clientConnect],
              newScopeParent := sessionScope,
              canceledScopes := [] }
    ∧ (∀ res, ConnectClient st true sessionScope newScope server = .ok res →
        CAction.closeIngress ∉ res.actions ∧ res.canceledScopes = [])
    ∧ connectTimeoutMillis = 1000
    ∧ (∀ timeline : Nat → ClientStatus, timeline 0 = .connected →
        awaitConnect timeline = true)
    ∧ awaitConnect (fun _ => .connecting) = false := by
  refine ⟨rfl, ?_, rfl, ?_, by decide⟩
  · intro res hres
    simp only [ConnectClient, Bool.not_true, if_neg] at hres
    cases hres
    constructor
    · cases h : st.server <;> simp [h]
    · rfl
  · intro timeline h
    simp [awaitConnect, awaitConnect.go, h]

/-- Witness for the amended C3 theorem at a concrete state: session
attached to server 1 with scope 7 and connecting to server 2 under
session scope 3 and fresh scope 8; and a timeline that is already
Connected at the first poll confirms successfully. -/
theorem c3_connect_client_witness :
    ConnectClient { server := some 1, status := .connected, scope := some 7 }
        true 3 8 2
      = .ok { state := { server := some 2, status := .connecting, scope := some 8 },
              actions := [CAction.sendDisconnect 1, CAction.sendConnect 2,
                          CAction.clientConnect],
              newScopeParent := 3,
              canceledScopes := [] }
    ∧ awaitConnect (fun _ => ClientStatus.connected) = true := by
  have h := c3_connect_client
    { server := some 1, status := .connected, scope := some 7 } 3 8 2
  exact ⟨h.1, h.2.2.2.1 (fun _ => .connected) rfl⟩

/-! ### Health supervision (GameServer.PollEvents,
    src/services/go/svc/cluster/servers/deployments.go) -/

/-- Server lifecycle status (the ServerStatus constants referenced by
deployments.go). -/
inductive SStatus where
  | starting
  | started
  | loadingMap
  | healthy
  | failure
  | exited
deriving DecidableEq, Repr

/-- The ping cadence of PollEvents: 500 ms. -/
def pingIntervalMillis : Nat := 500

/-- The loop state of PollEvents: current status, the time of the last
pong, and whether the loop has returned. -/
structure PollSt where
  status : SStatus
  lastPong : Nat
  exited : Bool
deriving DecidableEq, Repr

/-- The events PollEvents selects on, with times in milliseconds:
a ping-ticker tick, a decoded pong or healthy event from the child's
control socket, or any other control event (connect, disconnect,
broadcast, map request), which leaves the supervision state alone. -/
inductive PEvent where
  | tick (now : Nat)
  | pong (now : Nat)
  | healthyEvt
  | other
deriving DecidableEq, Repr

/-- Actions the loop emits. -/
inductive PAction where
  | ping
deriving DecidableEq, Repr

/-- One iteration of the PollEvents select loop (deployments.go,
lines 443-581): on a tick, if more than two ping intervals have passed
since the last pong the status is set to ServerFailure and the loop
returns, otherwise a ping is sent; a pong records its arrival time; a
healthy event sets the status to ServerHealthy. -/
def pollEventsStep (s : PollSt) (e : PEvent) : PollSt × List PAction :=
  match e with
  | .tick now =>
    if now - s.lastPong > 2 * pingIntervalMillis then
      ({ s with status := .failure, exited := true }, [])
    else
      (s, [.ping])
  | .pong now => ({ s with lastPong := now }, [])
  | .healthyEvt => ({ s with status := .healthy }, [])
  | .other => (s, [])

/-- Running the loop over a list of events; once the loop has returned
no further events are consumed. -/
def pollEventsRun (s : PollSt) : List PEvent → PollSt
  | [] => s
  | e :: rest =>
    if s.exited then s
    else pollEventsRun (pollEventsStep s e).1 rest

/-- Modelled from the spec: the ServerRegistry prunes idle or failed
entries and owns recovery, shutting failed servers down (the
ServerManager's pruning loop is not under src/; only deployments.go and
its callers are).  Returns the surviving registry and the ids shut
down. -/
def pruneFailed (registry : List (Nat × SStatus)) :
    List (Nat × SStatus) × List Nat :=
  (registry.filter (fun r => !(r.2 = SStatus.failure : Bool)),
    (registry.filter (fun r => (r.2 = SStatus.failure : Bool))).map (fun r => r.1))

theorem pollEventsStep_tick_overdue (s : PollSt) (now : Nat)
    (h : now - s.lastPong > 2 * pingIntervalMillis) :
    pollEventsStep s (.tick now) = ({ s with status := .failure, exited := true }, []) := by
  simp [pollEventsStep, h]

theorem pollEventsStep_tick_fresh (s : PollSt) (now : Nat)
    (h : now - s.lastPong ≤ 2 * pingIntervalMillis) :
    pollEventsStep s (.tick now) = (s, [.ping]) := by
  have h2 : ¬(now - s.lastPong > 2 * pingIntervalMillis) := by omega
  simp [pollEventsStep, h2]

/-- C4: after the child reports Healthy the loop keeps sending a ping on
every 500 ms tick while pongs are fresh; on any tick that finds the last
pong more than two ping intervals old, the status becomes Failed and the
loop exits; consequently, along a 500 ms tick cadence with no pong, the
server is Failed by the first tick past two intervals (it cannot remain
in a non-Failed state); and every server marked Failed is shut down by
the registry's pruning pass. -/
theorem c4_health_supervision (s : PollSt) (now p : Nat) (st : SStatus) (id : Nat)
    (registry : List (Nat × SStatus))
    (hover : now - s.lastPong > 2 * pingIntervalMillis)
    (hfresh : now - p ≤ 2 * pingIntervalMillis)
    (hmem : (id, SStatus.failure) ∈ registry) :
    (pollEventsStep s (.tick now)).1.status = .failure
    ∧ (pollEventsStep s (.tick now)).1.exited = true
    ∧ (pollEventsStep ⟨st, p, false⟩ (.tick now)).2 = [.ping]
    ∧ (pollEventsStep ⟨st, p, false⟩ (.tick now)).1.status = st
    ∧ pollEventsRun ⟨st, now, false⟩
        [.tick (now + 500), .tick (now + 1000), .tick (now + 1500)]
      = ⟨SStatus.failure, now, true⟩
    ∧ id ∈ (pruneFailed registry).2 := by
  have h1 : pollEventsStep (⟨st, now, false⟩ : PollSt) (.tick (now + 500))
      = (⟨st, now, false⟩, [.ping]) := by
    apply pollEventsStep_tick_fresh
    simp only [pingIntervalMillis]
    omega
  have h2 : pollEventsStep (⟨st, now, false⟩ : PollSt) (.tick (now + 1000))
      = (⟨st, now, false⟩, [.ping]) := by
    apply pollEventsStep_tick_fresh
    simp only [pingIntervalMillis]
    omega
  have h3 : pollEventsStep (⟨st, now, false⟩ : PollSt) (.tick (now + 1500))
      = (⟨SStatus.failure, now, true⟩, []) := by
    apply pollEventsStep_tick_overdue
    simp only [pingIntervalMillis]
    omega
  have hf : pollEventsStep (⟨st, p, false⟩ : PollSt) (.tick now)
      = (⟨st, p, false⟩, [.ping]) := pollEventsStep_tick_fresh _ _ hfresh
  refine ⟨?_, ?_, ?_, ?_, ?_, ?_⟩
  · rw [pollEventsStep_tick_overdue s now hover]
  · rw [pollEventsStep_tick_overdue s now hover]
  · rw [hf]
  · rw [hf]
  · simp [pollEventsRun, h1, h2, h3]
  · induction registry with
    | nil => cases hmem
    | cons r rest ih =>
      cases hmem with
      | head => simp [pruneFailed]
      | tail _ hm =>
        have := ih hm
        simp only [pruneFailed] at this ⊢
        by_cases hr : r.2 = SStatus.failure <;>
          simp [List.filter_cons, hr, this]

/-- Witness for C4: a healthy server whose last pong was at time 0,
observed by a tick at 1200 ms, fails and exits; a state ponged at
1000 ms keeps pinging at 1200 ms; a no-pong cadence from 1200 ms fails
by 2700 ms; and a one-entry failed registry gets shut down. -/
theorem c4_health_supervision_witness :
    (pollEventsStep ⟨SStatus.healthy, 0, false⟩ (.tick 1200)).1.status = .failure
    ∧ (pollEventsStep ⟨SStatus.healthy, 0, false⟩ (.tick 1200)).1.exited = true
    ∧ (pollEventsStep ⟨SStatus.healthy, 1000, false⟩ (.tick 1200)).2 = [.ping]
    ∧ (pollEventsStep ⟨SStatus.healthy, 1000, false⟩ (.tick 1200)).1.status
      = SStatus.healthy
    ∧ pollEventsRun ⟨SStatus.healthy, 1200, false⟩
        [.tick 1700, .tick 2200, .tick 2700] = ⟨SStatus.failure, 1200, true⟩
    ∧ 9 ∈ (pruneFailed [(9, SStatus.failure)]).2 := by
  exact c4_health_supervision ⟨SStatus.healthy, 0, false⟩ 1200 1000
    SStatus.healthy 9 [(9, SStatus.failure)] (by decide) (by decide)
    (by simp)

/-! ### Matchmaker queue and pairing (Matchmaker.Queue and
    Matchmaker.Poll, src/unnamed/part_011) -/

/-- A queue entry: the queued client (by id) and its enqueue time
(QueuedClient in the source). -/
structure QueuedClient where
  client : Nat
  joinTime : Nat
deriving DecidableEq, Repr

/-- Matchmaker.Queue (part_011, lines 419-429): unconditionally appends
a new entry for the client; no existing entry is checked or removed. -/
def matchmakerQueue (queue : List QueuedClient) (client now : Nat) :
    List QueuedClient :=
  queue ++ [{ client := client, joinTime := now }]

/-- The inner loop of Matchmaker.Poll for one outer entry a: walks the
whole cleaned queue; entries already matched and the entry equal to a
(same client and join time) are skipped, every other entry b is matched
with a — with no break after the first match, exactly as in the source.
Returns the updated matched set and the duels started. -/
def pollInner (a : QueuedClient) : List QueuedClient → List Nat →
    List (Nat × Nat) → List Nat × List (Nat × Nat)
  | [], matched, duels => (matched, duels)
  | b :: rest, matched, duels =>
    if b.client ∈ matched then pollInner a rest matched duels
    else if a = b then pollInner a rest matched duels
    else pollInner a rest (b.client :: a.client :: matched)
        (duels ++ [(a.client, b.client)])

/-- The outer loop of Matchmaker.Poll: entries whose client is already
matched are skipped, every other entry runs the inner loop over the
whole cleaned queue. -/
def pollOuter (cleaned : List QueuedClient) : List QueuedClient → List Nat →
    List (Nat × Nat) → List Nat × List (Nat × Nat)
  | [], matched, duels => (matched, duels)
  | a :: rest, matched, duels =>
    if a.client ∈ matched then pollOuter cleaned rest matched duels
    else
      let r := pollInner a cleaned matched duels
      pollOuter cleaned rest r.1 r.2

/-- One pass of Matchmaker.Poll (part_011, lines 431-497): first prune
entries whose client is no longer connected to the ingress, then run the
matching loops, then drop the matched entries from the queue.  Returns
the surviving queue and the duels started this pass. -/
def matchmakerPoll (queue : List QueuedClient) (connected : Nat → Bool) :
    List QueuedClient × List (Nat × Nat) :=
  let cleaned := queue.filter (fun q => connected q.client)
  let r := pollOuter cleaned cleaned [] []
  (cleaned.filter (fun q => !(q.client ∈ r.1 : Bool)), r.2)

/-- C5: with three connected clients 1, 2, 3 queued (in that order), a
single poll starts Duel(1,2) AND Duel(1,3): the inner matching loop has
no break, so client 1 participates in two pairings in one poll, although
the claim says every queued session participates in at most one pairing
per poll (and that only the two oldest eligible entries are paired).
The pruning of disconnected entries does come first, and all matched
entries are removed from the queue. -/
theorem c5_double_pairing :
    matchmakerPoll [⟨1, 0⟩, ⟨2, 10⟩, ⟨3, 20⟩] (fun _ => true)
      = ([], [(1, 2), (1, 3)])
    ∧ ((matchmakerPoll [⟨1, 0⟩, ⟨2, 10⟩, ⟨3, 20⟩] (fun _ => true)).2.filter
        (fun d => d.1 = 1 ∨ d.2 = 1)).length = 2
    ∧ matchmakerQueue [⟨1, 0⟩] 1 5 = [⟨1, 0⟩, ⟨1, 5⟩] := by
  refine ⟨by decide, by decide, by decide⟩

/-! ### creategame cooldown (Cluster.CreateGame,
    src/services/go/svc/cluster/service/commands.go, and
    CREATE_SERVER_COOLDOWN, src/services/go/svc/cluster/main.go) -/

/-- CREATE_SERVER_COOLDOWN = 10 s (main.go, lines 30-32), in
milliseconds. -/
def createServerCooldownMillis : Nat := 10000

/-- Association-list lookup, mirroring Go map access with its ok flag. -/
def alookup (k : String) : List (String × Nat) → Option Nat
  | [] => none
  | (k2, v) :: rest => if k2 = k then some v else alookup k rest

/-- Association-list update, mirroring Go map assignment. -/
def aupdate (k : String) (v : Nat) : List (String × Nat) → List (String × Nat)
  | [] => [(k, v)]
  | (k2, v2) :: rest =>
    if k2 = k then (k, v) :: rest else (k2, v2) :: aupdate k v rest

/-- The cluster state CreateGame reads and writes: per-host time of last
server create, per-host created server, and the running servers. -/
structure CreateSt where
  lastCreate : List (String × Nat)
  hostServers : List (String × Nat)
  servers : List Nat
  nextId : Nat
deriving DecidableEq, Repr

/-- Cluster.CreateGame (commands.go, lines 100-161): under the create
mutex, if the caller's host created a server less than
CREATE_SERVER_COOLDOWN ago the call returns the error "too soon since
last server create" without touching any state; otherwise any server
previously created by this host is removed, a new server is started and
recorded, and the host's lastCreate/hostServers entries are updated.
(Times are in milliseconds; Go's negative-duration comparison and
truncated Nat subtraction agree on the cooldown test.) -/
def CreateGame (st : CreateSt) (host : String) (now : Nat) :
    CreateSt × Except String Nat :=
  match alookup host st.lastCreate with
  | some t =>
    if now - t < createServerCooldownMillis then
      (st, .error "too soon since last server create")
    else createGameProceed st host now
  | none => createGameProceed st host now
where
  /-- The body after the cooldown check: remove the host's previous
  server, create and record the new one. -/
  createGameProceed (st : CreateSt) (host : String) (now : Nat) :
      CreateSt × Except String Nat :=
    let st1 :=
      match alookup host st.hostServers with
      | some sid => { st with servers := st.servers.filter (fun s => !(s = sid : Bool)) }
      | none => st
    let sid := st1.nextId
    ({ st1 with
        servers := st1.servers ++ [sid]
        nextId := sid + 1
        lastCreate := aupdate host now st1.lastCreate
        hostServers := aupdate host sid st1.hostServers },
      .ok sid)

/-- Cluster.HandleCommand (commands.go, lines 458-466) for a creategame
invocation: on error, a red "command failed: <error>" message is sent to
the invoking user and to nobody else.  Returns the new state and the
(recipient, text) messages sent. -/
def handleCreateGame (st : CreateSt) (user : Nat) (host : String) (now : Nat) :
    CreateSt × List (Nat × String) :=
  match CreateGame st host now with
  | (st2, .error e) => (st2, [(user, "command failed: " ++ e)])
  | (st2, .ok _) => (st2, [])

/-- C6: a second creategame from the same host within the 10-second
cooldown window returns the error "too soon since last server create";
the cluster state is completely unchanged (no server spawned, nothing
any other session observes is affected), and the only message goes to
the invoking user. -/
theorem c6_creategame_cooldown (st : CreateSt) (user : Nat) (host : String)
    (now t : Nat)
    (hlast : alookup host st.lastCreate = some t)
    (hsoon : now - t < createServerCooldownMillis) :
    CreateGame st host now = (st, .error "too soon since last server create")
    ∧ handleCreateGame st user host now
      = (st, [(user, "command failed: too soon since last server create")]) := by
  have h : CreateGame st host now
      = (st, .error "too soon since last server create") := by
    unfold CreateGame
    rw [hlast]
    simp [hsoon]
  exact ⟨h, by unfold handleCreateGame; rw [h]; rfl⟩

/-- Witness for C6: host "1.2.3.4" created a server at t = 0 and calls
creategame again at t = 5000 ms; the call errors, the state is
unchanged, and only user 42 is messaged. -/
theorem c6_creategame_cooldown_witness :
    CreateGame ⟨[("1.2.3.4", 0)], [("1.2.3.4", 0)], [0], 1⟩ "1.2.3.4" 5000
      = (⟨[("1.2.3.4", 0)], [("1.2.3.4", 0)], [0], 1⟩,
          .error "too soon since last server create")
    ∧ handleCreateGame ⟨[("1.2.3.4", 0)], [("1.2.3.4", 0)], [0], 1⟩ 42 "1.2.3.4" 5000
      = (⟨[("1.2.3.4", 0)], [("1.2.3.4", 0)], [0], 1⟩,
          [(42, "command failed: too soon since last server create")]) := by
  exact c6_creategame_cooldown ⟨[("1.2.3.4", 0)], [("1.2.3.4", 0)], [0], 1⟩
    42 "1.2.3.4" 5000 0 rfl (by decide)

/-! ### Port allocation (Manager.FindPort and IsPortAvailable,
    src/services/go/pkg/manager/module.go) -/

/-- The scan loop of Manager.FindPort (module.go, lines 195-219):
for port := minPort; port < maxPort; port += 2, over the uint16 port
counter, so the increment is taken modulo 2^16 = 65536 (at port = 65534
the counter wraps to 0).  A port owned by an existing server record is
skipped, otherwise it is probed with the availability oracle
(IsPortAvailable binds a UDP socket to the candidate, an external effect
modelled as the oracle avail) and the first success is returned.  The
Go loop has no bound of its own; the fuel argument is the number of
iterations observed: some (some p) is a successful return of p, some
none is the loop falling through to the error return, and none means the
loop was still running when the fuel ran out. -/
def findPortLoop (serverPorts : List Nat) (avail : Nat → Bool) (maxPort : Nat) :
    Nat → Nat → Option (Option Nat)
  | 0, _ => none
  | fuel + 1, port =>
    if port < maxPort then
      if port ∈ serverPorts then
        findPortLoop serverPorts avail maxPort fuel ((port + 2) % 65536)
      else if avail port then some (some port)
      else findPortLoop serverPorts avail maxPort fuel ((port + 2) % 65536)
    else some none

/-- Manager.FindPort (module.go, lines 195-219): run the scan loop from
minPort; a fall-through yields the error "Failed to find port in range".
The fuel is the observation budget for the underlying loop; none means
the loop had not returned yet. -/
def FindPort (minPort maxPort : Nat) (serverPorts : List Nat)
    (avail : Nat → Bool) (fuel : Nat) : Option (Except String Nat) :=
  match findPortLoop serverPorts avail maxPort fuel minPort with
  | some (some p) => some (.ok p)
  | some none => some (.error "Failed to find port in range")
  | none => none

theorem findPortLoop_eq (serverPorts : List Nat) (avail : Nat → Bool)
    (maxPort : Nat) (hmax : maxPort ≤ 65534) :
    ∀ fuel port, (maxPort - port + 1) / 2 < fuel →
      findPortLoop serverPorts avail maxPort fuel port
        = some ((List.range' port ((maxPort - port + 1) / 2) 2).find?
            (fun p => !(p ∈ serverPorts : Bool) && avail p)) := by
  intro fuel
  induction fuel with
  | zero =>
    intro port h
    exact absurd h (by omega)
  | succ fuel ih =>
    intro port h
    by_cases hlt : port < maxPort
    · have hmod : (port + 2) % 65536 = port + 2 := by omega
      have hcount : (maxPort - port + 1) / 2
          = ((maxPort - (port + 2) + 1) / 2) + 1 := by omega
      rw [hcount, List.range'_succ]
      have hrec := ih (port + 2) (by omega)
      by_cases hown : port ∈ serverPorts
      · rw [List.find?_cons_of_neg _ (by simp [hown])]
        simp only [findPortLoop, if_pos hlt, if_pos hown]
        rw [hmod]
        exact hrec
      · by_cases hav : avail port = true
        · rw [List.find?_cons_of_pos _ (by simp [hown, hav])]
          simp only [findPortLoop, if_pos hlt, if_neg hown, if_pos hav]
        · rw [List.find?_cons_of_neg _ (by simp [hav])]
          simp only [findPortLoop, if_pos hlt, if_neg hown]
          rw [if_neg hav, hmod]
          exact hrec
    · have h2 : (maxPort - port + 1) / 2 = 0 := by omega
      simp [findPortLoop, hlt, h2]

theorem findPortLoop_wrap_none (serverPorts : List Nat) (avail : Nat → Bool)
    (hall : ∀ q, q % 2 = 0 → q < 65536 → (q ∈ serverPorts ∨ avail q = false)) :
    ∀ fuel port, port % 2 = 0 → port < 65536 →
      findPortLoop serverPorts avail 65535 fuel port = none := by
  intro fuel
  induction fuel with
  | zero => intro port _ _; rfl
  | succ fuel ih =>
    intro port hev hlt
    have hlt2 : port < 65535 := by omega
    have hnextEv : ((port + 2) % 65536) % 2 = 0 := by omega
    have hnextLt : (port + 2) % 65536 < 65536 := by omega
    by_cases hown : port ∈ serverPorts
    · simp only [findPortLoop, if_pos hlt2, if_pos hown]
      exact ih _ hnextEv hnextLt
    · have hav : avail port = false := by
        rcases hall port hev hlt with h | h
        · exact absurd h hown
        · exact h
      simp only [findPortLoop, if_pos hlt2, if_neg hown]
      rw [if_neg (by simp [hav])]
      exact ih _ hnextEv hnextLt

/-- C8 counterexample, in two parts.  First, minPort = 100,
maxPort = 102, no owned ports and exactly port 102 = maxPort available:
the claimed inclusive scan of [minPort, maxPort] would return 102, but
the loop condition is port < maxPort, so the pass errors without probing
maxPort.  Second, minPort = 65532, maxPort = 65535, no owned ports, only
port 0 available (binding UDP port 0 always succeeds — the OS picks an
ephemeral port): after probing 65532 and 65534 the uint16 counter wraps
65534 + 2 to 0 and the loop returns port 0 — outside the configured
range and with no error — so on this input the allocation neither scans
only [minPort, maxPort] nor returns an error within a single bounded
pass. -/
theorem c8_counterexample :
    FindPort 100 102 [] (fun p => p == 102) 5
      = some (.error "Failed to find port in range")
    ∧ (fun p => p == 102) 102 = true
    ∧ 102 ∉ ([] : List Nat)
    ∧ FindPort 65532 65535 [] (fun p => p == 0) 5 = some (.ok 0)
    ∧ ¬(65532 ≤ 0) := by
  refine ⟨rfl, by decide, by decide, rfl, by decide⟩

/-- C8 (amended): port allocation iterates a uint16 counter from minPort
in steps of 2 while it is below maxPort, skipping ports owned by
existing server records and probing the rest with the UDP-bind oracle,
returning the first available port.  Whenever maxPort ≤ 65534 the scan
is a single bounded pass over the half-open range [minPort, maxPort)
that returns the error "Failed to find port in range" when exhausted,
with no retry.  When maxPort = 65535, reaching candidate 65534 wraps the
counter to 0, so the loop proceeds to rescan even ports from 0 upward —
it can return a port outside the configured range, and if no even port
is unowned and available it never returns at all. -/
theorem c8_find_port (minPort maxPort : Nat) (serverPorts : List Nat)
    (avail : Nat → Bool) (fuel : Nat) :
    (maxPort ≤ 65534 → (maxPort - minPort + 1) / 2 < fuel →
      FindPort minPort maxPort serverPorts avail fuel
        = some (match (List.range' minPort ((maxPort - minPort + 1) / 2) 2).find?
              (fun p => !(p ∈ serverPorts : Bool) && avail p) with
            | some p => .ok p
            | none => .error "Failed to find port in range"))
    ∧ (65534 ∉ serverPorts → avail 65534 = false →
        findPortLoop serverPorts avail 65535 (fuel + 1) 65534
          = findPortLoop serverPorts avail 65535 fuel 0)
    ∧ ((∀ q, q % 2 = 0 → q < 65536 → (q ∈ serverPorts ∨ avail q = false)) →
        ∀ port, port % 2 = 0 → port < 65536 →
          findPortLoop serverPorts avail 65535 fuel port = none) := by
  refine ⟨?_, ?_, ?_⟩
  · intro hmax hfuel
    unfold FindPort
    rw [findPortLoop_eq serverPorts avail maxPort hmax fuel minPort hfuel]
    cases (List.range' minPort ((maxPort - minPort + 1) / 2) 2).find?
      (fun p => !(p ∈ serverPorts : Bool) && avail p) <;> rfl
  · intro hown hav
    simp only [findPortLoop, if_pos (by omega : (65534 : Nat) < 65535),
      if_neg hown]
    rw [if_neg (by simp [hav])]
  · intro hall port hev hlt
    exact findPortLoop_wrap_none serverPorts avail hall fuel port hev hlt

/-- Witness for the amended C8 theorem: a bounded scan over [100, 104)
returns the first available candidate 102; with 65534 unowned and
unavailable the wrap step continues the loop at port 0; and with no even
port available at all the loop never returns within any budget
(here 7 iterations from port 0). -/
theorem c8_find_port_witness :
    FindPort 100 104 [] (fun p => p == 102) 5 = some (.ok 102)
    ∧ findPortLoop [] (fun _ => false) 65535 4 65534
      = findPortLoop [] (fun _ => false) 65535 3 0
    ∧ findPortLoop [] (fun _ => false) 65535 7 0 = none := by
  refine ⟨?_, ?_, ?_⟩
  · have h := (c8_find_port 100 104 [] (fun p => p == 102) 5).1
      (by decide) (by decide)
    rw [h]
    rfl
  · exact (c8_find_port 100 65535 [] (fun _ => false) 3).2.1
      (by decide) rfl
  · exact (c8_find_port 100 65535 [] (fun _ => false) 7).2.2
      (fun q _ _ => Or.inr rfl) 0 rfl (by decide)

/-! ### Server identity generation (FindIdentity,
    src/services/go/pkg/manager/module.go) -/

/-- A generated server identity: the short hash id and the Unix socket
path derived from it (manager/module.go, Identity). -/
structure Identity where
  hash : String
  path : String
deriving DecidableEq, Repr

/-- The socket path for a hash: filepath.Join("/tmp",
"qserv_<hash>.sock"). -/
def sockPath (h : String) : String := "/tmp/qserv_" ++ h ++ ".sock"

/-- FindIdentity (manager/module.go, lines 235-256): repeatedly draw a
nonce, hash (port, nonce) and keep the first candidate whose socket path
does not already exist.  SHA-256 with hex truncation to 8 characters is
a crypto-library primitive, modelled as the oracle hash; the successive
random nonces are given as a list (the source loops forever, so the
model returns none only when the supplied draws run out); existingPaths
is the set of paths for which os.Stat succeeds.  Note the loop consults
only the file system — existing server records are never checked. -/
def FindIdentity (hash : Nat → Nat → String) (port : Nat)
    (existingPaths : List String) : List Nat → Option Identity
  | [] => none
  | nonce :: rest =>
    let h := hash port nonce
    let p := sockPath h
    if p ∈ existingPaths then FindIdentity hash port existingPaths rest
    else some { hash := h, path := p }

/-- C9 counterexample: with a hash oracle that yields "aaaaaaaa" for the
drawn nonce, a live server record with id "aaaaaaaa" whose socket file
is absent (e.g. its child has not bound it yet), and no pre-existing
socket paths, FindIdentity returns the identity "aaaaaaaa" on the first
draw: the returned id collides with the existing record, refuting the
claim that generation rejects and retries on collision with existing
server records — the loop only ever consults the socket path. -/
theorem c9_identity_counterexample :
    FindIdentity (fun _ _ => "aaaaaaaa") 50000 [] [0]
      = some { hash := "aaaaaaaa", path := "/tmp/qserv_aaaaaaaa.sock" }
    ∧ "aaaaaaaa" ∈ ["aaaaaaaa"] := by
  exact ⟨rfl, by simp⟩

/-- C9 (amended): identity generation hashes (port, nonce) for
successive random nonces and rejects and retries only while the
candidate's socket path already exists; every returned identity
therefore has a socket path that did not previously exist and a hash
produced by the oracle for the given port, but nothing guarantees
distinctness from existing server records. -/
theorem c9_find_identity (hash : Nat → Nat → String) (port : Nat)
    (existingPaths : List String) (nonces : List Nat) (id : Identity)
    (h : FindIdentity hash port existingPaths nonces = some id) :
    id.path ∉ existingPaths
    ∧ id.hash ∈ nonces.map (hash port)
    ∧ id.path = sockPath id.hash := by
  induction nonces with
  | nil => cases h
  | cons nonce rest ih =>
    by_cases hp : sockPath (hash port nonce) ∈ existingPaths
    · simp only [FindIdentity, if_pos hp] at h
      have := ih h
      exact ⟨this.1, by simp [List.map_cons, this.2.1], this.2.2⟩
    · simp only [FindIdentity, if_neg hp] at h
      cases h
      exact ⟨hp, by simp, rfl⟩

/-- Witness for the amended C9 theorem: with an oracle mapping nonce n
to "h<n>", port 5, one existing socket path for nonce 0, and draws
[0, 1], the returned identity is the nonce-1 candidate, its path is
fresh and its hash comes from the oracle. -/
theorem c9_find_identity_witness :
    ({ hash := "h1", path := "/tmp/qserv_h1.sock" } : Identity).path
        ∉ ["/tmp/qserv_h0.sock"]
    ∧ ({ hash := "h1", path := "/tmp/qserv_h1.sock" } : Identity).hash
        ∈ ([0, 1].map (fun n => "h" ++ toString n))
    ∧ ({ hash := "h1", path := "/tmp/qserv_h1.sock" } : Identity).path
        = sockPath ({ hash := "h1", path := "/tmp/qserv_h1.sock" } : Identity).hash := by
  exact c9_find_identity (fun _ n => "h" ++ toString n) 5
    ["/tmp/qserv_h0.sock"] [0, 1]
    { hash := "h1", path := "/tmp/qserv_h1.sock" } rfl

/-! ### Proxy download map (MakeDownloadMap, src/unnamed/part_011, and
    maps.NewMap, src/services/go/pkg/maps/types.go) -/

/-- A map variable (maps.Variable): int, float or string valued.  The
float payload is abstracted; the claims only touch int and string
variables.  String payloads are lists of characters, matching the
byte-slice strings of the source. -/
inductive MapVariable where
  | intVar (n : Int)
  | floatVar
  | stringVar (s : List Char)
deriving DecidableEq, Repr

/-- A map entity (maps.Entity): position and attributes.  float32
coordinates are modelled as integers; every coordinate MakeDownloadMap
writes is integral. -/
structure MapEntity where
  x : Int
  y : Int
  z : Int
  attr1 : Int := 0
  attr2 : Int := 0
  attr3 : Int := 0
  attr4 : Int := 0
  attr5 : Int := 0
  etype : Nat
deriving DecidableEq, Repr

/-- The numeric code of the game's teleport entity type
(game.EntityTypeTeleport; the pkg/game constants are not under src/, the
value is the engine's ET_TELEPORT). -/
def EntityTypeTeleport : Nat := 14

/-- The map header (maps.Header), with the fields NewMap sets. -/
structure MapHeader where
  version : Nat
  headerSize : Nat
  worldSize : Nat
  gameType : String
deriving DecidableEq, Repr

/-- maps.GameMap: header, entities, variables, and the number of root
cubes (the cube octree itself is irrelevant to the claims). -/
structure SourGameMap where
  header : MapHeader
  entities : List MapEntity
  vars : List (String × MapVariable)
  cubes : Nat
deriving DecidableEq, Repr

/-- maps.NewMap (types.go, lines 360-373): version 33 header, game type
"fps", world size 1024, no entities, eight root cubes, no variables. -/
def NewMap : SourGameMap :=
  { header := { version := 33, headerSize := 40, worldSize := 1024, gameType := "fps" }
    entities := []
    vars := []
    cubes := 8 }

/-- Variable lookup in a map's variable table. -/
def lookupVar (k : String) : List (String × MapVariable) → Option MapVariable
  | [] => none
  | (k2, v) :: rest => if k2 = k then some v else lookupVar k rest

/-- The CubeScript maptitle script MakeDownloadMap builds around the
20-character file name (the fmt.Sprintf template in part_011,
lines 29-41). -/
def mkScript (fileName : List Char) : List Char :=
  ("\ncan_teleport_1 = [\ndemodir sour\ngetdemo 0 ").toList
    ++ fileName
    ++ ("\ncan_teleport_1 = []\n]\ncan_teleport_2 = [\naddzip sour/").toList
    ++ fileName
    ++ (".dmo\ndemodir demo\ncan_teleport_2 = []\n]\nsay a\n").toList

/-- The map value MakeDownloadMap constructs for a name of length at
least 20: NewMap with the cloudlayer, skyboxcolour and maptitle
variables set and the two teleport entities appended (part_011,
lines 22-65). -/
def downloadMap (demoName : List Char) : SourGameMap :=
  let fileName := demoName.take 20
  { NewMap with
    vars := [("cloudlayer", .stringVar []),
             ("skyboxcolour", .intVar 0),
             ("maptitle", .stringVar (mkScript fileName))]
    entities := [
      { x := 512 + 10, y := 512 + 10, z := 512, attr3 := 1,
        etype := EntityTypeTeleport },
      { x := 512 - 10, y := 512 - 10, z := 512, attr3 := 2,
        etype := EntityTypeTeleport }] }

/-- MakeDownloadMap (part_011, lines 22-73): the slice expression
demoName[:20] panics for names shorter than 20 bytes — modelled as none
— and otherwise the proxy map is built and encoded.  (EncodeOGZ is pure
serialization of the returned map; the claim is settled on the map
value.) -/
def MakeDownloadMap (demoName : List Char) : Option SourGameMap :=
  if demoName.length < 20 then none
  else some (downloadMap demoName)

/-- C10: MakeDownloadMap is only total for demo names of at least 20
characters: any shorter name makes demoName[:20] panic (it never returns
an error), while for names of length at least 20 the function builds a
proxy map whose entity list is exactly two teleport entities and whose
variable table carries a maptitle script built from the first 20
characters of the name. -/
theorem c10_make_download_map (demoName : List Char) :
    (demoName.length < 20 → MakeDownloadMap demoName = none)
    ∧ (20 ≤ demoName.length →
        MakeDownloadMap demoName = some (downloadMap demoName)
        ∧ ((downloadMap demoName).entities.filter
            (fun e => e.etype = EntityTypeTeleport)).length = 2
        ∧ (downloadMap demoName).entities.length = 2
        ∧ lookupVar "maptitle" (downloadMap demoName).vars
          = some (.stringVar (mkScript (demoName.take 20)))) := by
  constructor
  · intro h
    simp [MakeDownloadMap, h]
  · intro h
    have h2 : ¬demoName.length < 20 := by omega
    refine ⟨by simp [MakeDownloadMap, h2], ?_, rfl, rfl⟩
    simp [downloadMap, EntityTypeTeleport, List.filter]

/-- Witness for C10: a 3-character name panics; the 20-character name
"abcdefghijklmnopqrst" yields the two-teleport proxy map with its
maptitle script. -/
theorem c10_make_download_map_witness :
    MakeDownloadMap ['a', 'b', 'c'] = none
    ∧ (MakeDownloadMap
          ['a', 'b', 'c', 'd', 'e', 'f', 'g', 'h', 'i', 'j',
           'k', 'l', 'm', 'n', 'o', 'p', 'q', 'r', 's', 't']
        = some (downloadMap
          ['a', 'b', 'c', 'd', 'e', 'f', 'g', 'h', 'i', 'j',
           'k', 'l', 'm', 'n', 'o', 'p', 'q', 'r', 's', 't'])
      ∧ ((downloadMap
          ['a', 'b', 'c', 'd', 'e', 'f', 'g', 'h', 'i', 'j',
           'k', 'l', 'm', 'n', 'o', 'p', 'q', 'r', 's', 't']).entities.filter
            (fun e => e.etype = EntityTypeTeleport)).length = 2
      ∧ (downloadMap
          ['a', 'b', 'c', 'd', 'e', 'f', 'g', 'h', 'i', 'j',
           'k', 'l', 'm', 'n', 'o', 'p', 'q', 'r', 's', 't']).entities.length = 2
      ∧ lookupVar "maptitle" (downloadMap
          ['a', 'b', 'c', 'd', 'e', 'f', 'g', 'h', 'i', 'j',
           'k', 'l', 'm', 'n', 'o', 'p', 'q', 'r', 's', 't']).vars
        = some (.stringVar (mkScript (List.take 20
          ['a', 'b', 'c', 'd', 'e', 'f', 'g', 'h', 'i', 'j',
           'k', 'l', 'm', 'n', 'o', 'p', 'q', 'r', 's', 't'])))) := by
  exact ⟨(c10_make_download_map ['a', 'b', 'c']).1 (by decide),
    (c10_make_download_map _).2 (by decide)⟩

/-! ### Reflective game-protocol codec (marshalValue, unmarshalStruct
    and UnmarshalValue, src/unnamed/part_002) -/

/-- The tag governing a slice-typed struct field (the Go struct tags
type:"count" with an optional const:"N", and type:"term" with
cmp:"gez" or cmp:"len"). -/
inductive SliceTag where
  | count (constN : Option Nat)
  | termGez
  | termLen
deriving DecidableEq, Repr

/-- The Go types the reflective codec walks: the primitive kinds it
supports, structs (their ordered field types), and slices with their
tag. -/
inductive GoTy where
  | int
  | byte
  | bool
  | uint
  | str
  | struct_ (fields : List GoTy)
  | slice (elem : GoTy) (tag : SliceTag)

/-- Go values of those types. -/
inductive GoVal where
  | vint (n : Int)
  | vbyte (n : Nat)
  | vbool (b : Bool)
  | vuint (n : Nat)
  | vstr (s : List Char)
  | vstruct (fields : List GoVal)
  | vslice (elems : List GoVal)

/-- Packet tokens.  The Packet primitives (PutInt/GetInt etc. of
pkg/game, the variable-length game integer format) are not under src/;
modelled from the spec as self-delimiting tokens, each primitive write
appending one token and each primitive read consuming one matching
token. -/
inductive Tok where
  | tint (n : Int)
  | tbyte (n : Nat)
  | tuint (n : Nat)
  | tstr (s : List Char)
deriving DecidableEq, Repr

/-- marshalValue (part_002, lines 216-268): primitive kinds append one
token (bool is written as int 1/0); a struct marshals its fields in
order, DISCARDING each field's error exactly as the source's Struct case
does; any other kind — in particular a slice, for which marshalValue has
no case — yields the "unimplemented type" error.  The fuel bounds the
recursion depth and is chosen ample by callers. -/
def marshalValue : Nat → GoTy → GoVal → Except String (List Tok)
  | 0, _, _ => .error "fuel exhausted"
  | fuel + 1, ty, v =>
    match ty, v with
    | .int, .vint n => .ok [.tint n]
    | .byte, .vbyte n => .ok [.tbyte n]
    | .bool, .vbool b => .ok [.tint (if b then 1 else 0)]
    | .uint, .vuint n => .ok [.tuint n]
    | .str, .vstr s => .ok [.tstr s]
    | .struct_ fts, .vstruct vs =>
      .ok (((fts.zip vs).map (fun p =>
        match marshalValue fuel p.1 p.2 with
        | .ok toks => toks
        | .error _ => [])).flatten)
    | _, _ => .error "unimplemented type"

mutual

/-- UnmarshalValue (part_002, lines 135-199): primitive kinds read one
token (bool reads an int and compares it to 1); a struct defers to the
field loop of unmarshalStruct; any other kind — in particular a
top-level slice — is the "unimplemented type" error. -/
def unmarshalValue : Nat → GoTy → List Tok → Except String (GoVal × List Tok)
  | 0, _, _ => .error "fuel exhausted"
  | fuel + 1, ty, toks =>
    match ty with
    | .int =>
      match toks with
      | .tint n :: rest => .ok (.vint n, rest)
      | _ => .error "error reading int"
    | .byte =>
      match toks with
      | .tbyte n :: rest => .ok (.vbyte n, rest)
      | _ => .error "error reading byte"
    | .bool =>
      match toks with
      | .tint n :: rest => .ok (.vbool (n == 1), rest)
      | _ => .error "error reading bool"
    | .uint =>
      match toks with
      | .tuint n :: rest => .ok (.vuint n, rest)
      | _ => .error "error reading uint"
    | .str =>
      match toks with
      | .tstr s :: rest => .ok (.vstr s, rest)
      | _ => .error "error reading string"
    | .struct_ fts =>
      match unmarshalFields fuel fts toks with
      | .ok (vs, rest) => .ok (.vstruct vs, rest)
      | .error e => .error e
    | .slice _ _ => .error "unimplemented type"

/-- The field loop of unmarshalStruct (part_002, lines 17-133): a slice
field parses its elements per tag, but the parsed elements are DISCARDED
because the source ignores the slice returned by reflect.Append, so the
decoded field is always the empty slice; a struct field recurses; every
other field defers to UnmarshalValue. -/
def unmarshalFields : Nat → List GoTy → List Tok → Except String (List GoVal × List Tok)
  | 0, _, _ => .error "fuel exhausted"
  | _ + 1, [], toks => .ok ([], toks)
  | fuel + 1, ft :: fts, toks =>
    match ft with
    | .slice elem tag =>
      match
        (match tag with
          | .count (some k) => unmarshalCount fuel elem k toks
          | .count none =>
            match toks with
            | .tint n :: rest => unmarshalCount fuel elem n.toNat rest
            | _ => .error "failed to read number of elements"
          | .termGez => unmarshalTermGez fuel elem toks
          | .termLen => unmarshalTermLen fuel elem toks) with
      | .ok rest =>
        match unmarshalFields fuel fts rest with
        | .ok (vs, rest2) => .ok (.vslice [] :: vs, rest2)
        | .error e => .error e
      | .error e => .error e
    | _ =>
      match unmarshalValue fuel ft toks with
      | .ok (v, rest) =>
        match unmarshalFields fuel fts rest with
        | .ok (vs, rest2) => .ok (v :: vs, rest2)
        | .error e => .error e
      | .error e => .error e

/-- The count-tagged element loop of unmarshalStruct: parse exactly n
elements — each must be a struct, as the source parses elements with
unmarshalStruct — consuming the packet; the elements themselves are
dropped by the caller. -/
def unmarshalCount : Nat → GoTy → Nat → List Tok → Except String (List Tok)
  | 0, _, _, _ => .error "fuel exhausted"
  | _ + 1, _, 0, toks => .ok toks
  | fuel + 1, elem, n + 1, toks =>
    match elem with
    | .struct_ efts =>
      match unmarshalFields fuel efts toks with
      | .ok (_, rest) => unmarshalCount fuel elem n rest
      | .error e => .error e
    | _ => .error "cannot unmarshal non-struct"

/-- The term/gez element loop of unmarshalStruct: peek an int; a
negative value is consumed and ends the array, a non-negative value
means one more (struct) element is parsed from the unconsumed packet. -/
def unmarshalTermGez : Nat → GoTy → List Tok → Except String (List Tok)
  | 0, _, _ => .error "fuel exhausted"
  | fuel + 1, elem, toks =>
    match toks with
    | .tint n :: rest =>
      if n < 0 then .ok rest
      else
        match elem with
        | .struct_ efts =>
          match unmarshalFields fuel efts (Tok.tint n :: rest) with
          | .ok (_, rest2) => unmarshalTermGez fuel elem rest2
          | .error e => .error e
        | _ => .error "cannot unmarshal non-struct"
    | _ => .error "failed to read int condition"

/-- The term/len element loop of unmarshalStruct: peek a string; an
empty string is consumed and ends the array, otherwise one more (struct)
element is parsed from the unconsumed packet. -/
def unmarshalTermLen : Nat → GoTy → List Tok → Except String (List Tok)
  | 0, _, _ => .error "fuel exhausted"
  | fuel + 1, elem, toks =>
    match toks with
    | .tstr s :: rest =>
      if s.isEmpty then .ok rest
      else
        match elem with
        | .struct_ efts =>
          match unmarshalFields fuel efts (Tok.tstr s :: rest) with
          | .ok (_, rest2) => unmarshalTermLen fuel elem rest2
          | .error e => .error e
        | _ => .error "cannot unmarshal non-struct"
    | _ => .error "failed to read string condition"

end

/-- The N_SPAWN message shape (pkg/game/messages/messages.go, Spawn):
six int fields followed by the Ammo slice of one-int structs, tagged
type:"count" const:"6". -/
def spawnTy : GoTy :=
  .struct_ [.int, .int, .int, .int, .int, .int,
    .slice (.struct_ [.int]) (.count (some 6))]

/-- A well-formed Spawn value: six ints and six ammo entries. -/
def spawnVal : GoVal :=
  .vstruct [.vint 1, .vint 100, .vint 100, .vint 0, .vint 0, .vint 1,
    .vslice [.vstruct [.vint 10], .vstruct [.vint 10], .vstruct [.vint 10],
             .vstruct [.vint 10], .vstruct [.vint 10], .vstruct [.vint 10]]]

/-- The tokens marshalValue actually produces for spawnVal: the six int
fields only — the Ammo slice contributes nothing because marshalValue
has no slice case and the struct loop drops the error. -/
def spawnToks : List Tok :=
  [.tint 1, .tint 100, .tint 100, .tint 0, .tint 0, .tint 1]

/-- C7: the decode-after-encode round trip fails on the well-formed
Spawn message value spawnVal.  Marshalling silently emits nothing for
the Ammo slice field (marshalValue has no slice case and its struct loop
ignores the error), and unmarshalling then dies reading the six
const-count elements from the exhausted packet — and even when element
bytes are present, the decoded slice is empty because unmarshalStruct
discards the result of reflect.Append.  So unmarshal (marshal v) is an
error, not v: decode ∘ encode is not the identity on well-formed
messages. -/
theorem c7_roundtrip_failure :
    marshalValue 20 spawnTy spawnVal = .ok spawnToks
    ∧ unmarshalValue 20 spawnTy spawnToks = .error "error reading int"
    ∧ (match marshalValue 20 spawnTy spawnVal with
        | .ok toks => unmarshalValue 20 spawnTy toks
        | .error e => .error e)
      ≠ .ok (spawnVal, ([] : List Tok)) := by
  refine ⟨rfl, rfl, ?_⟩
  intro h
  rw [show (match marshalValue 20 spawnTy spawnVal with
      | .ok toks => unmarshalValue 20 spawnTy toks
      | .error e => .error e)
      = (.error "error reading int" : Except String (GoVal × List Tok)) from rfl] at h
  cases h

end Sour
